import Mathlib

/-!
Verification of the Economic-metrics-dashboard data pipeline.

This file gives a shallow embedding of the two source files of the
repository (`utils.py` and `app.py`) and proves the specified properties
of the Series Resolver (`get_real_data`), the YoY-growth computation
(`calculate_yoy_growth`), the Metric Catalog (`get_categories` together
with `METRIC_DEFINITIONS`) and the change summary (`calculate_change`).

Modelling conventions:
* Timestamps are integers (days); values are IEEE-style floats modelled
  as `FVal` (a finite rational, `+inf`, `-inf`, or `NaN`).
* A pandas `Series` is a list of (timestamp, value) pairs in index order.
* Python exceptions are modelled with `Except PyError`; a `try/except`
  that converts a failure to `None` becomes a `match` on the `Except`
  (or `Except.toOption`).
* The two external data providers (FRED via `fredapi`, Yahoo via
  `yfinance`) are an abstract environment `Env`: for every series id /
  ticker and requested date range they either return raw data or raise.
  All theorems quantify over every such environment.
-/

/-- Python exception classes that occur in the embedded code. -/
inductive PyError
  | typeError
  | valueError
  | attributeError
  | indexError
  | zeroDivisionError
  | keyError
  | generic
deriving DecidableEq, Repr

/-- A raw cell value as delivered by a data provider, before
`astype(float)`: a number, a missing value (NaN), or a non-numeric
object on which a float cast raises `ValueError`. -/
inductive RawVal
  | num (q : ℚ)
  | nan
  | str
deriving DecidableEq, Repr

/-- An IEEE-754-style float value after `astype(float)`: finite,
positive/negative infinity, or NaN.  numpy/pandas arithmetic on these
never raises; it produces infinities and NaNs instead. -/
inductive FVal
  | fin (q : ℚ)
  | pinf
  | ninf
  | nan
deriving DecidableEq, Repr

/-- A pandas Series: (timestamp, value) pairs in index order. -/
abbrev Series : Type := List (ℤ × FVal)

/-- Raw provider output before the float cast. -/
abbrev RawSeries : Type := List (ℤ × RawVal)

/-- Default element used with `List.getD` (timestamps are never read
through the default; the NaN value keeps out-of-range reads harmless). -/
def dfl : ℤ × FVal := (0, FVal.nan)

/-- numpy float subtraction (used for `baa - treasury`). -/
def fsub : FVal → FVal → FVal
  | FVal.nan, _ => FVal.nan
  | _, FVal.nan => FVal.nan
  | FVal.fin a, FVal.fin b => FVal.fin (a - b)
  | FVal.fin _, FVal.pinf => FVal.ninf
  | FVal.fin _, FVal.ninf => FVal.pinf
  | FVal.pinf, FVal.fin _ => FVal.pinf
  | FVal.ninf, FVal.fin _ => FVal.ninf
  | FVal.pinf, FVal.pinf => FVal.nan
  | FVal.pinf, FVal.ninf => FVal.pinf
  | FVal.ninf, FVal.pinf => FVal.ninf
  | FVal.ninf, FVal.ninf => FVal.nan

/-- numpy float division (used for `numerator.div(denominator)` and
`pct_change`).  Division by zero yields an infinity or NaN, never an
exception; the zero divisor is treated as `+0`. -/
def fdiv : FVal → FVal → FVal
  | FVal.nan, _ => FVal.nan
  | _, FVal.nan => FVal.nan
  | FVal.fin a, FVal.fin b =>
      if b = 0 then (if a = 0 then FVal.nan else if 0 < a then FVal.pinf else FVal.ninf)
      else FVal.fin (a / b)
  | FVal.fin _, FVal.pinf => FVal.fin 0
  | FVal.fin _, FVal.ninf => FVal.fin 0
  | FVal.pinf, FVal.fin b => if 0 ≤ b then FVal.pinf else FVal.ninf
  | FVal.ninf, FVal.fin b => if 0 ≤ b then FVal.ninf else FVal.pinf
  | FVal.pinf, FVal.pinf => FVal.nan
  | FVal.pinf, FVal.ninf => FVal.nan
  | FVal.ninf, FVal.pinf => FVal.nan
  | FVal.ninf, FVal.ninf => FVal.nan

/-- Multiplication by the scalar 100 (the `* 100` in the YoY formula);
infinities and NaN are fixed points. -/
def mul100 : FVal → FVal
  | FVal.fin q => FVal.fin (q * 100)
  | v => v

/-- `fillna(method='ffill')` along the existing index, carrying `carry`
as the last value seen so far (NaN until a value has been seen). -/
def ffillFrom : FVal → Series → Series
  | _, [] => []
  | carry, (t, v) :: rest =>
      if v = FVal.nan then (t, carry) :: ffillFrom carry rest
      else (t, v) :: ffillFrom v rest

/-- pandas `fillna(method='ffill')`: forward-fill NaN values in place on
the existing index (no reindexing). -/
def ffill (s : Series) : Series := ffillFrom FVal.nan s

/-- `astype(float)`: numbers and NaN pass through; a non-numeric cell
makes the cast raise `ValueError`. -/
def castFloat : RawSeries → Except PyError Series
  | [] => Except.ok []
  | (t, RawVal.num q) :: rest => (castFloat rest).map (fun s => (t, FVal.fin q) :: s)
  | (t, RawVal.nan) :: rest => (castFloat rest).map (fun s => (t, FVal.nan) :: s)
  | (_, RawVal.str) :: _ => Except.error PyError.valueError

/-- Value of a series at an exact timestamp; NaN when the timestamp is
not in the index (this is how pandas aligns two series on the union of
their indices). -/
def seriesAt (s : Series) (t : ℤ) : FVal :=
  match s.find? (fun p => p.1 = t) with
  | some p => p.2
  | none => FVal.nan

/-- Sorted union of the two indices, as pandas index alignment builds it. -/
def unionTs (a b : Series) : List ℤ :=
  ((a.map Prod.fst ++ b.map Prod.fst).dedup).mergeSort (fun x y => decide (x ≤ y))

/-- Elementwise binary operation of two series aligned by date on the
union of their indices (pandas `Series.sub` / `Series.div`): a date
missing from either operand contributes a NaN operand. -/
def alignWith (op : FVal → FVal → FVal) (a b : Series) : Series :=
  (unionTs a b).map (fun t => (t, op (seriesAt a t) (seriesAt b t)))

/-- The external world: the FRED client (`fred.get_series`) and the
Yahoo Finance client (`yf.download(...)['Close']`), each taking an
identifier and the requested [start, end] range and either returning
raw data or raising; `now` is `datetime.now()` as a day number. -/
structure Env where
  fred : String → ℤ → ℤ → Except PyError RawSeries
  yahoo : String → ℤ → ℤ → Except PyError RawSeries
  now : ℤ

/-- `get_fred_data` (utils.py lines 72-83): fetch one FRED series over
`[now - (days+365), now]`, cast to float, forward-fill; any exception in
the `try` block (provider failure or float-cast failure) is caught and
converted to `None`. -/
def get_fred_data (env : Env) (series_id : String) (days : ℕ) : Option Series :=
  match env.fred series_id (env.now - ((days : ℤ) + 365)) env.now with
  | Except.error _ => none
  | Except.ok raw =>
      match castFloat raw with
      | Except.error _ => none
      | Except.ok s => some (ffill s)

/-- `get_market_data` (utils.py lines 102-112): fetch one ticker's daily
close over the same extended window, cast to float, forward-fill; any
exception is caught and converted to `None`. -/
def get_market_data (env : Env) (ticker : String) (days : ℕ) : Option Series :=
  match env.yahoo ticker (env.now - ((days : ℤ) + 365)) env.now with
  | Except.error _ => none
  | Except.ok raw =>
      match castFloat raw with
      | Except.error _ => none
      | Except.ok s => some (ffill s)

/-- `get_ratio_data` (utils.py lines 85-100): fetch two tickers' closes,
compute the date-aligned elementwise ratio, cast and forward-fill; any
exception in the block (either download failing, or non-numeric data
making the division/cast raise) is caught and converted to `None`. -/
def get_ratio_data (env : Env) (numerator_ticker denominator_ticker : String) (days : ℕ) :
    Option Series :=
  match env.yahoo numerator_ticker (env.now - ((days : ℤ) + 365)) env.now with
  | Except.error _ => none
  | Except.ok nRaw =>
      match env.yahoo denominator_ticker (env.now - ((days : ℤ) + 365)) env.now with
      | Except.error _ => none
      | Except.ok dRaw =>
          match castFloat nRaw, castFloat dRaw with
          | Except.ok n, Except.ok d => some (ffill (alignWith fdiv n d))
          | _, _ => none

/-- Strictly increasing (monotonic, duplicate-free) timestamp index, the
condition under which pandas `asfreq`/`reindex` succeeds. -/
def monoTs : Series → Bool
  | [] => true
  | [_] => true
  | p :: q :: rest => decide (p.1 < q.1) && monoTs (q :: rest)

/-- First timestamp of a series, if any. -/
def headTs (s : Series) : Option ℤ := s.head?.map Prod.fst

/-- Last timestamp of a series, if any. -/
def lastTs (s : Series) : Option ℤ := s.getLast?.map Prod.fst

/-- pandas `reindex(..., method='ffill')` lookup on a monotonic index:
the value stored at the greatest index entry `≤ t` (NaN when `t`
precedes the whole index). -/
def lookupLE (s : Series) (t : ℤ) : FVal :=
  match (s.takeWhile (fun p => decide (p.1 ≤ t))).getLast? with
  | some p => p.2
  | none => FVal.nan

/-- `data.asfreq('D', method='ffill')`: reindex onto the continuous
daily grid from the first to the last timestamp, filling each grid day
with the last value at or before it. -/
def asfreqD (s : Series) : Series :=
  match headTs s, lastTs s with
  | some t0, some t1 =>
      (List.range (t1 - t0 + 1).toNat).map
        (fun i : ℕ => (t0 + (i : ℤ), lookupLE s (t0 + (i : ℤ))))
  | _, _ => []

/-- `daily_data.pct_change(periods=365) * 100`: pandas first pads NaNs
(the default `fill_method='pad'`), then computes `v[i]/v[i-365] - 1`
positionally (NaN for the first 365 positions), then the result is
scaled by 100. -/
def pctChange365 (g : Series) : Series :=
  (List.range (ffill g).length).map (fun i =>
    (((ffill g).getD i dfl).1,
      mul100 (fsub (fdiv ((ffill g).getD i dfl).2
        (if 365 ≤ i then ((ffill g).getD (i - 365) dfl).2 else FVal.nan)) (FVal.fin 1))))

/-- `calculate_yoy_growth` (utils.py lines 60-70): resample to the daily
grid and take the trailing-365-day percent change; `asfreq` raises on a
non-monotonic (or duplicated) index, and the surrounding `try/except`
converts that to `None`. -/
def calculate_yoy_growth (data : Series) : Option Series :=
  if monoTs data then some (pctChange365 (asfreqD data)) else none

/-- `data.iloc[-n:]`: the last `n` elements.  Python slice semantics:
`iloc[-0:]` is the whole list. -/
def ilocLast (n : ℕ) (l : Series) : Series :=
  if n = 0 then l else l.drop (l.length - n)

/-- The truncation step of `get_real_data` (utils.py lines 187-190):
`if len(s) > days: s = s.iloc[-days:]`. -/
def truncWindow (days : ℕ) (s : Series) : Series :=
  if days < s.length then ilocLast days s else s

/-- The `if/elif` dispatch of `get_real_data` (utils.py lines 122-181):
map the metric name to a retrieval strategy, with the S&P 500 price
series as the fallback for every unmatched name. -/
def dispatch (env : Env) (metric_name : String) (days : ℕ) : Option Series :=
  if metric_name = "GDP Growth Rate" then get_fred_data env "GDPC1" days
  else if metric_name = "Non-Farm Payroll" then get_fred_data env "PAYEMS" days
  else if metric_name = "Employment Data" then get_fred_data env "ICSA" days
  else if metric_name = "Personal Finance" then get_fred_data env "PSAVERT" days
  else if metric_name = "Housing Sales" then get_fred_data env "HSN1F" days
  else if metric_name = "Auto Sales" then get_fred_data env "TOTALSA" days
  else if metric_name = "Retail Sales" then get_fred_data env "RSXFS" days
  else if metric_name = "Manufacturing PMI" then get_fred_data env "NAPM" days
  else if metric_name = "Services PMI" then get_fred_data env "NMFCI" days
  else if metric_name = "Housing Supply" then get_fred_data env "PERMIT" days
  else if metric_name = "Manufacturing Orders" then get_fred_data env "DGORDER" days
  else if metric_name = "Weekly Economic Index (WEI)" then get_fred_data env "WEI" days
  else if metric_name = "Copper/Gold Ratio" then get_ratio_data env "HG=F" "GC=F" days
  else if metric_name = "Oil/Gold Ratio" then get_ratio_data env "CL=F" "GC=F" days
  else if metric_name = "Key Interest Rates" then get_fred_data env "DFF" days
  else if metric_name = "Credit Spread" then
    match get_fred_data env "BAA" days, get_fred_data env "DGS10" days with
    | some baa, some treasury => some (ffill (alignWith fsub baa treasury))
    | _, _ => none
  else if metric_name = "VIX Index" then get_market_data env "^VIX" days
  else get_market_data env "^GSPC" days

/-- The body of the outer `try` of `get_real_data` (utils.py 119-193) as
an exception-transparent computation: every branch ends in `pure`, since
each retrieval helper already catches its own exceptions internally and
the remaining steps are total. -/
def get_real_data_core (env : Env) (metric_name : String) (days : ℕ) :
    Except PyError (Option Series × Option Series) :=
  match dispatch env metric_name days with
  | some data =>
      match calculate_yoy_growth data with
      | some y => Except.ok (some (truncWindow days data), some (truncWindow days y))
      | none => Except.ok (some (truncWindow days data), none)
  | none => Except.ok (none, none)

/-- `get_real_data` (utils.py lines 114-197): run the body and let the
outer `except` convert any escaped exception to `(None, None)`. -/
def get_real_data (env : Env) (metric_name : String) (days : ℕ) :
    Option Series × Option Series :=
  match get_real_data_core env metric_name days with
  | Except.ok p => p
  | Except.error _ => (none, none)

/-- `get_categories` (utils.py lines 24-58): the static, ordered metric
catalog. -/
def get_categories : List (String × List String) :=
  [("Consumption",
    ["GDP Growth Rate", "Non-Farm Payroll", "Employment Data", "Personal Finance",
     "Housing Sales", "Auto Sales", "Retail Sales"]),
   ("Supply",
    ["Manufacturing PMI", "Services PMI", "Housing Supply", "Manufacturing Orders",
     "Weekly Economic Index (WEI)", "Copper/Gold Ratio", "Oil/Gold Ratio"]),
   ("Interest Rate",
    ["Key Interest Rates", "Credit Spread", "VIX Index"]),
   ("Market",
    ["AAII Investor Sentiment Survey", "NAAIM Manager Sentiment", "Put/Call Ratio",
     "CFTC Commitments of Traders", "Market Breadth", "Sector Relative Strength"])]

/-- `METRIC_DEFINITIONS` (app.py lines 24-52): the parallel lookup from
metric name to its human-readable definition string. -/
def METRIC_DEFINITIONS : List (String × String) :=
  [("GDP Growth Rate",
    "Real Gross Domestic Product (FRED: GDPC1) - Inflation-adjusted measure of the total value of goods and services produced in the US."),
   ("Non-Farm Payroll",
    "Total Nonfarm Payroll (FRED: PAYEMS) - Number of U.S. workers in the economy excluding proprietors, private household employees, and farm employees."),
   ("Employment Data",
    "Initial Unemployment Claims (FRED: ICSA) - Number of new jobless claims filed by individuals seeking unemployment benefits."),
   ("Personal Finance",
    "Personal Savings Rate (FRED: PSAVERT) - Percentage of disposable personal income saved by individuals."),
   ("Housing Sales",
    "New Home Sales (FRED: HSN1F) - Number of new single-family houses sold and for sale."),
   ("Auto Sales",
    "Total Vehicle Sales (FRED: TOTALSA) - Total number of light weight vehicles sold."),
   ("Retail Sales",
    "Retail Sales (FRED: RSXFS) - Total sales for retail and food services."),
   ("Manufacturing PMI",
    "ISM Manufacturing PMI (FRED: NAPM) - Index based on surveys of manufacturing businesses, values over 50 indicate expansion."),
   ("Services PMI",
    "ISM Services PMI (FRED: NMFCI) - Index based on surveys of service sector businesses, values over 50 indicate expansion."),
   ("Housing Supply",
    "Building Permits (FRED: PERMIT) - Number of new housing units authorized by building permits."),
   ("Manufacturing Orders",
    "Durable Goods Orders (FRED: DGORDER) - New orders for manufactured durable goods."),
   ("Weekly Economic Index (WEI)",
    "NY Fed Weekly Economic Index (FRED: WEI) - An index of real economic activity using timely high-frequency data."),
   ("Copper/Gold Ratio",
    "Ratio between Copper and Gold futures prices - A measure of economic health and inflation expectations."),
   ("Oil/Gold Ratio",
    "Ratio between Crude Oil and Gold futures prices - An indicator of economic activity and inflation."),
   ("Key Interest Rates",
    "Federal Funds Rate (FRED: DFF) - The interest rate at which banks lend money to each other overnight."),
   ("Credit Spread",
    "BAA Corporate Bond Yield minus 10-Year Treasury Yield - Measures market risk perception."),
   ("VIX Index",
    "CBOE Volatility Index (^VIX) - Measures market\x27s expectation of 30-day volatility."),
   ("AAII Investor Sentiment Survey",
    "S&P 500 as proxy - Measures individual investor sentiment (bullish vs bearish)."),
   ("NAAIM Manager Sentiment",
    "S&P 500 as proxy - Reflects professional money managers\x27 current equity exposure."),
   ("Put/Call Ratio",
    "S&P 500 as proxy - Ratio of put options to call options, indicating market sentiment."),
   ("CFTC Commitments of Traders",
    "S&P 500 as proxy - Shows positions of large institutional traders."),
   ("Market Breadth",
    "S&P 500 as proxy - Percentage of stocks above their moving averages."),
   ("Sector Relative Strength",
    "S&P 500 as proxy - Relative performance of different market sectors.")]

/-- Dictionary lookup `METRIC_DEFINITIONS[metric]`. -/
def lookupDef (metric : String) : Option String :=
  (METRIC_DEFINITIONS.find? (fun p => p.1 = metric)).map Prod.snd

/-- An argument passed to `calculate_change`: a pandas Series (whose
cells are raw values, so that a non-numeric cell makes `float()` raise
`ValueError`), or any non-Series object. -/
inductive PyObj
  | series (s : List (ℤ × RawVal))
  | dataframe
  | pylist (l : List ℚ)
  | pynone
deriving DecidableEq

/-- Whether the `isinstance(data, pd.Series)` test succeeds. -/
def isSeriesObj : PyObj → Bool
  | PyObj.series _ => true
  | _ => false

/-- `float(x)` on a cell: a number converts, NaN converts to the float
NaN (`pd.isna` then catches it, modelled as `none`), and a non-numeric
object raises `ValueError`. -/
def float_of : RawVal → Except PyError (Option ℚ)
  | RawVal.num q => Except.ok (some q)
  | RawVal.nan => Except.ok none
  | RawVal.str => Except.error PyError.valueError

/-- The statements inside the `try` of `calculate_change` (app.py lines
56-68) on a Series argument: `iloc[0]` raises `IndexError` on an empty
series; `float()` raises `ValueError` on a non-numeric endpoint; the
`pd.isna` test returns `None` for NaN endpoints; and the division
`(last - first) / first` raises `ZeroDivisionError` when the first value
is zero (Python float division, not numpy). -/
def calculate_change_body (s : List (ℤ × RawVal)) : Except PyError (Option ℚ) :=
  match s.head?, s.getLast? with
  | some f, some l =>
      match float_of f.2 with
      | Except.error e => Except.error e
      | Except.ok fv =>
          match float_of l.2 with
          | Except.error e => Except.error e
          | Except.ok lv =>
              match fv, lv with
              | some a, some b =>
                  if a = 0 then Except.error PyError.zeroDivisionError
                  else Except.ok (some ((b - a) / a * 100))
              | _, _ => Except.ok none
  | _, _ => Except.error PyError.indexError

/-- The exception classes listed in the `except` clause of
`calculate_change`: `(TypeError, ValueError, AttributeError,
IndexError)`.  `ZeroDivisionError` is not among them. -/
def caughtByCalcChange : PyError → Bool
  | PyError.typeError => true
  | PyError.valueError => true
  | PyError.attributeError => true
  | PyError.indexError => true
  | _ => false

/-- `calculate_change` (app.py lines 54-72): on a Series run the body,
catching only the four listed exception classes (converted to `None`);
any other exception propagates.  A non-Series argument skips the `if`
and falls through to the final `return None`. -/
def calculate_change (data : PyObj) : Except PyError (Option ℚ) :=
  match data with
  | PyObj.series s =>
      match calculate_change_body s with
      | Except.ok v => Except.ok v
      | Except.error e =>
          if caughtByCalcChange e then Except.ok none else Except.error e
  | _ => Except.ok none

/-- The growth series as the specification words it: on the resampled
daily grid, `(value[t] / value[t - 365 days] - 1) * 100`, where
`value[u]` is the grid value at timestamp `u` (undefined — NaN — when
`u` precedes the grid). -/
def specYoy (d : Series) : Series :=
  (asfreqD d).map (fun p =>
    (p.1, mul100 (fsub (fdiv p.2 (seriesAt (asfreqD d) (p.1 - 365))) (FVal.fin 1))))

/-! ### Structural lemmas about forward-filling -/

/-- Forward-filling preserves the length of a series. -/
theorem ffillFrom_length (c : FVal) (s : Series) : (ffillFrom c s).length = s.length := by
  induction s generalizing c with
  | nil => rfl
  | cons p rest ih =>
    obtain ⟨t, v⟩ := p
    simp only [ffillFrom]
    split <;> simp [ih]

/-- Forward-filling preserves the timestamps of a series. -/
theorem ffillFrom_ts (c : FVal) (s : Series) (i : ℕ) :
    ((ffillFrom c s).getD i dfl).1 = (s.getD i dfl).1 := by
  induction s generalizing c i with
  | nil => rfl
  | cons p rest ih =>
    obtain ⟨t, v⟩ := p
    simp only [ffillFrom]
    split
    · cases i with
      | zero => rfl
      | succ n => simpa using ih c n
    · cases i with
      | zero => rfl
      | succ n => simpa using ih v n

/-- Once the forward-fill carry is a value (not NaN), every output cell
is a value. -/
theorem ffillFrom_ne_nan (c : FVal) (hc : c ≠ FVal.nan) (s : Series) :
    ∀ p ∈ ffillFrom c s, p.2 ≠ FVal.nan := by
  induction s generalizing c with
  | nil => simp [ffillFrom]
  | cons p rest ih =>
    obtain ⟨t, v⟩ := p
    simp only [ffillFrom]
    split
    · intro q hq
      rcases List.mem_cons.mp hq with h | h
      · subst h; exact hc
      · exact ih c hc q h
    · intro q hq
      rcases List.mem_cons.mp hq with h | h
      · subst h; assumption
      · exact ih v (by assumption) q h

/-- NaN cells form a leading segment: once a cell holds a value, every
later cell holds a value.  This is the shape every forward-filled series
has, and it is what makes the pad step inside `pct_change` a no-op on
the pipeline's data. -/
def nanLeading (s : Series) : Prop :=
  ∀ i j : ℕ, i ≤ j → j < s.length → (s.getD i dfl).2 ≠ FVal.nan → (s.getD j dfl).2 ≠ FVal.nan

theorem nanLeading_nil : nanLeading [] := by
  intro i j _ hj
  simp at hj

theorem nanLeading_cons_nan (t : ℤ) (l : Series) (h : nanLeading l) :
    nanLeading ((t, FVal.nan) :: l) := by
  intro i j hij hj hi
  cases i with
  | zero => simp [dfl] at hi
  | succ n =>
    cases j with
    | zero => omega
    | succ m =>
      simp only [List.getD_cons_succ] at hi ⊢
      exact h n m (by omega) (by simpa using hj) hi

theorem nanLeading_cons_of_ne (p : ℤ × FVal) (l : Series) (h : nanLeading (p :: l)) :
    nanLeading l := by
  intro i j hij hj hi
  have := h (i + 1) (j + 1) (by omega) (by simpa using hj) (by simpa using hi)
  simpa using this

theorem nanLeading_of_forall (s : Series) (h : ∀ p ∈ s, p.2 ≠ FVal.nan) : nanLeading s := by
  intro i j hij hj _
  have hmem : s.getD j dfl ∈ s := by
    rw [List.getD_eq_getElem s dfl hj]
    exact List.getElem_mem hj
  exact h _ hmem

/-- A forward-filled series has its NaN cells only in a leading segment. -/
theorem nanLeading_ffill (s : Series) : nanLeading (ffill s) := by
  unfold ffill
  induction s with
  | nil => exact nanLeading_nil
  | cons p rest ih =>
    obtain ⟨t, v⟩ := p
    simp only [ffillFrom]
    split
    · exact nanLeading_cons_nan t _ ih
    · apply nanLeading_of_forall
      intro q hq
      rcases List.mem_cons.mp hq with h | h
      · subst h; assumption
      · exact ffillFrom_ne_nan v (by assumption) rest q h

theorem ffillFrom_eq_self (c : FVal) (s : Series) (h : ∀ p ∈ s, p.2 ≠ FVal.nan) :
    ffillFrom c s = s := by
  induction s generalizing c with
  | nil => rfl
  | cons p rest ih =>
    obtain ⟨t, v⟩ := p
    have hv : v ≠ FVal.nan := h (t, v) (List.mem_cons_self _ _)
    simp only [ffillFrom, if_neg hv]
    rw [ih v (fun q hq => h q (List.mem_cons_of_mem _ hq))]

/-- Forward-filling is the identity on a series whose NaNs form a
leading segment. -/
theorem ffill_eq_self (s : Series) : nanLeading s → ffill s = s := by
  unfold ffill
  induction s with
  | nil => intro _; rfl
  | cons p rest ih =>
    intro h
    obtain ⟨t, v⟩ := p
    by_cases hv : v = FVal.nan
    · subst hv
      simp only [ffillFrom, if_pos rfl]
      rw [ih (nanLeading_cons_of_ne _ _ h)]
      simp
    · simp only [ffillFrom, if_neg hv]
      rw [ffillFrom_eq_self v rest ?_]
      intro q hq
      obtain ⟨n, hn, rfl⟩ := List.getElem_of_mem hq
      have h0 : (((t, v) :: rest).getD 0 dfl).2 ≠ FVal.nan := by simpa using hv
      have := h 0 (n + 1) (by omega) (by simpa using hn) h0
      rw [List.getD_cons_succ, List.getD_eq_getElem rest dfl hn] at this
      exact this

/-! ### The daily grid and the reindex-forward-fill lookup -/

/-- `takeWhile` with a weaker predicate extends the one with a stronger
predicate. -/
theorem takeWhile_mono_pred {α : Type} (p q : α → Bool) (hpq : ∀ a, p a = true → q a = true) :
    ∀ l : List α, (l.takeWhile p) <+: (l.takeWhile q)
  | [] => by simp
  | a :: l => by
    by_cases hp : p a = true
    · rw [List.takeWhile_cons, List.takeWhile_cons, if_pos hp, if_pos (hpq a hp)]
      exact (List.cons_prefix_cons).mpr ⟨rfl, takeWhile_mono_pred p q hpq l⟩
    · rw [List.takeWhile_cons, if_neg hp]
      exact List.nil_prefix

/-- The value a prefix of `s` ends in is a value `s` itself holds at the
corresponding position. -/
theorem getLast_of_take (s : Series) (T : Series) (hpre : T <+: s) (hne : T ≠ []) :
    T.getLast hne = s.getD (T.length - 1) dfl := by
  have hlen : 0 < T.length := List.length_pos.mpr hne
  obtain ⟨r, hr⟩ := hpre
  subst hr
  rw [List.getLast_eq_getElem, List.getD_eq_getElem _ dfl (by simp; omega)]
  exact (List.getElem_append_left (by omega)).symm

/-- On a series whose NaNs lead, the reindex lookup stays a value once
it has become a value: a later grid day looks at a later (or equal)
entry of the series. -/
theorem lookupLE_mono (s : Series) (hs : nanLeading s) {t u : ℤ} (htu : t ≤ u)
    (h : lookupLE s t ≠ FVal.nan) : lookupLE s u ≠ FVal.nan := by
  unfold lookupLE at h ⊢
  have hpre : (s.takeWhile (fun p => decide (p.1 ≤ t))) <+:
      (s.takeWhile (fun p => decide (p.1 ≤ u))) := by
    apply takeWhile_mono_pred
    intro a ha
    simp only [decide_eq_true_eq] at ha ⊢
    omega
  have hpre' : (s.takeWhile (fun p => decide (p.1 ≤ u))) <+: s := List.takeWhile_prefix _
  cases hTL : (s.takeWhile (fun p => decide (p.1 ≤ t))).getLast? with
  | none => rw [hTL] at h; exact absurd rfl h
  | some pl =>
    rw [hTL] at h
    have hTne : s.takeWhile (fun p => decide (p.1 ≤ t)) ≠ [] := by
      intro hnil
      rw [hnil] at hTL
      simp at hTL
    have hlen1 : 0 < (s.takeWhile (fun p => decide (p.1 ≤ t))).length :=
      List.length_pos.mpr hTne
    have hlen2 : (s.takeWhile (fun p => decide (p.1 ≤ t))).length ≤
        (s.takeWhile (fun p => decide (p.1 ≤ u))).length := hpre.length_le
    have hlen3 : (s.takeWhile (fun p => decide (p.1 ≤ u))).length ≤ s.length :=
      hpre'.length_le
    have hTne' : s.takeWhile (fun p => decide (p.1 ≤ u)) ≠ [] := by
      intro hnil
      rw [hnil] at hlen2
      simp only [List.length_nil] at hlen2
      omega
    rw [List.getLast?_eq_getLast_of_ne_nil hTne']
    rw [List.getLast?_eq_getLast_of_ne_nil hTne] at hTL
    have hpl : pl = s.getD ((s.takeWhile (fun p => decide (p.1 ≤ t))).length - 1) dfl := by
      have := getLast_of_take s _ (hpre.trans hpre') hTne
      rw [this] at hTL
      exact (Option.some.injEq _ _ ▸ hTL).symm
    rw [getLast_of_take s _ hpre' hTne']
    exact hs ((s.takeWhile (fun p => decide (p.1 ≤ t))).length - 1)
      ((s.takeWhile (fun p => decide (p.1 ≤ u))).length - 1)
      (by omega) (by omega) (by rw [← hpl]; exact h)

theorem fdiv_nan_right (x : FVal) : fdiv x FVal.nan = FVal.nan := by cases x <;> rfl

theorem fdiv_nan_left (y : FVal) : fdiv FVal.nan y = FVal.nan := by cases y <;> rfl

theorem fsub_nan_left (y : FVal) : fsub FVal.nan y = FVal.nan := by cases y <;> rfl

theorem mul100_nan : mul100 FVal.nan = FVal.nan := rfl

/-- Unfolding `asfreqD` on a nonempty series. -/
theorem asfreqD_eq (s : Series) (t0 t1 : ℤ) (h0 : headTs s = some t0)
    (h1 : lastTs s = some t1) :
    asfreqD s = (List.range (t1 - t0 + 1).toNat).map
      (fun i : ℕ => (t0 + (i : ℤ), lookupLE s (t0 + (i : ℤ)))) := by
  unfold asfreqD
  rw [h0, h1]

theorem asfreqD_eq_nil_head (s : Series) (h : headTs s = none) : asfreqD s = [] := by
  unfold asfreqD
  rw [h]

theorem asfreqD_eq_nil_last (s : Series) (h : lastTs s = none) : asfreqD s = [] := by
  unfold asfreqD
  rw [h]
  cases headTs s <;> rfl

/-- Reading an in-range position of a daily grid. -/
theorem grid_getD (N : ℕ) (t0 : ℤ) (h : ℕ → FVal) (j : ℕ) (hj : j < N) :
    ((List.range N).map (fun i : ℕ => (t0 + (i : ℤ), h i))).getD j dfl = (t0 + (j : ℤ), h j) := by
  rw [List.getD_eq_getElem _ dfl (by simp [hj])]
  rw [List.getElem_map, List.getElem_range]

/-- The grid inherits the leading-NaN shape from its source series. -/
theorem nanLeading_asfreqD (s : Series) (hs : nanLeading s) : nanLeading (asfreqD s) := by
  cases h0 : headTs s with
  | none => rw [asfreqD_eq_nil_head s h0]; exact nanLeading_nil
  | some t0 =>
    cases h1 : lastTs s with
    | none => rw [asfreqD_eq_nil_last s h1]; exact nanLeading_nil
    | some t1 =>
      rw [asfreqD_eq s t0 t1 h0 h1]
      intro i j hij hj hi
      rw [List.length_map, List.length_range] at hj
      rw [grid_getD _ t0 _ j hj]
      rw [grid_getD _ t0 _ i (by omega)] at hi
      exact lookupLE_mono s hs (by omega) hi

/-- Exact-timestamp lookup on a daily grid, in range. -/
theorem find?_range_eq_some (k : ℕ) (p : ℕ → Bool) (hp : ∀ j, p j = true ↔ j = k)
    (N : ℕ) (hk : k < N) : (List.range N).find? p = some k := by
  induction N with
  | zero => omega
  | succ n ih =>
    rw [List.range_succ, List.find?_append]
    by_cases h : k < n
    · rw [ih h]
      rfl
    · have hkn : k = n := by omega
      have hnone : (List.range n).find? p = none := by
        rw [List.find?_eq_none]
        intro x hx
        rw [List.mem_range] at hx
        rw [hp x]
        omega
      have hpn : p n = true := (hp n).mpr hkn.symm
      rw [hnone, Option.none_or, List.find?_cons_of_pos _ hpn, hkn]

theorem seriesAt_grid (N : ℕ) (t0 : ℤ) (h : ℕ → FVal) (k : ℕ) (hk : k < N) :
    seriesAt ((List.range N).map (fun i : ℕ => (t0 + (i : ℤ), h i))) (t0 + (k : ℤ)) = h k := by
  unfold seriesAt
  rw [List.find?_map]
  have heq : (List.range N).find? ((fun p : ℤ × FVal => decide (p.1 = t0 + (k : ℤ))) ∘
      (fun i : ℕ => (t0 + (i : ℤ), h i))) = some k := by
    apply find?_range_eq_some k _ ?_ N hk
    intro j
    simp only [Function.comp_apply, decide_eq_true_eq]
    omega
  rw [heq]
  rfl

theorem seriesAt_grid_lt (N : ℕ) (t0 : ℤ) (h : ℕ → FVal) (t : ℤ) (ht : t < t0) :
    seriesAt ((List.range N).map (fun i : ℕ => (t0 + (i : ℤ), h i))) t = FVal.nan := by
  unfold seriesAt
  split
  · rename_i p hfind
    have hmem := List.mem_of_find?_eq_some hfind
    have hpt := List.find?_some hfind
    simp only [List.mem_map, List.mem_range] at hmem
    obtain ⟨i, hi, rfl⟩ := hmem
    simp only [decide_eq_true_eq] at hpt
    omega
  · rfl

/-- On a series whose NaNs lead (the shape of everything the dispatch
produces, since every retrieval path ends in a forward fill), the code's
positional `pct_change(365)` on the daily grid — including its internal
pad step, which is a no-op here — coincides with the specification's
formula `(value[t] / value[t - 365 days] - 1) * 100` read off the grid
by timestamp. -/
theorem pct_eq_spec (d : Series) (hd : nanLeading d) :
    pctChange365 (asfreqD d) = specYoy d := by
  have hg : ffill (asfreqD d) = asfreqD d := ffill_eq_self _ (nanLeading_asfreqD d hd)
  unfold pctChange365 specYoy
  rw [hg]
  cases h0 : headTs d with
  | none => rw [asfreqD_eq_nil_head d h0]; rfl
  | some t0 =>
    cases h1 : lastTs d with
    | none => rw [asfreqD_eq_nil_last d h1]; rfl
    | some t1 =>
      rw [asfreqD_eq d t0 t1 h0 h1]
      rw [List.length_map, List.length_range]
      rw [List.map_map]
      apply List.map_congr_left
      intro i hi
      rw [List.mem_range] at hi
      simp only [Function.comp_apply]
      rw [grid_getD _ t0 _ i hi]
      by_cases h365 : 365 ≤ i
      · rw [if_pos h365]
        rw [grid_getD _ t0 _ (i - 365) (by omega)]
        have harith : t0 + (i : ℤ) - 365 = t0 + ((i - 365 : ℕ) : ℤ) := by omega
        show _ = (t0 + (i : ℤ),
          mul100 (fsub (fdiv (lookupLE d (t0 + (i : ℤ)))
            (seriesAt ((List.range (t1 - t0 + 1).toNat).map
              (fun i : ℕ => (t0 + (i : ℤ), lookupLE d (t0 + (i : ℤ)))))
              (t0 + (i : ℤ) - 365))) (FVal.fin 1)))
        rw [harith, seriesAt_grid _ t0 _ (i - 365) (by omega)]
      · rw [if_neg h365]
        show _ = (t0 + (i : ℤ),
          mul100 (fsub (fdiv (lookupLE d (t0 + (i : ℤ)))
            (seriesAt ((List.range (t1 - t0 + 1).toNat).map
              (fun i : ℕ => (t0 + (i : ℤ), lookupLE d (t0 + (i : ℤ)))))
              (t0 + (i : ℤ) - 365))) (FVal.fin 1)))
        rw [seriesAt_grid_lt _ t0 _ _ (by omega)]

/-! ### Shape of the dispatch results and the shared post-processing -/

theorem get_fred_data_ffill (env : Env) (sid : String) (days : ℕ) (d : Series)
    (h : get_fred_data env sid days = some d) : ∃ x, d = ffill x := by
  unfold get_fred_data at h
  split at h
  · exact absurd h (by simp)
  · split at h
    · exact absurd h (by simp)
    · exact ⟨_, (Option.some.injEq _ _ ▸ h).symm⟩

theorem get_market_data_ffill (env : Env) (ticker : String) (days : ℕ) (d : Series)
    (h : get_market_data env ticker days = some d) : ∃ x, d = ffill x := by
  unfold get_market_data at h
  split at h
  · exact absurd h (by simp)
  · split at h
    · exact absurd h (by simp)
    · exact ⟨_, (Option.some.injEq _ _ ▸ h).symm⟩

theorem get_ratio_data_ffill (env : Env) (nt dt : String) (days : ℕ) (d : Series)
    (h : get_ratio_data env nt dt days = some d) : ∃ x, d = ffill x := by
  unfold get_ratio_data at h
  split at h
  · exact absurd h (by simp)
  · split at h
    · exact absurd h (by simp)
    · split at h
      · exact ⟨_, (Option.some.injEq _ _ ▸ h).symm⟩
      · exact absurd h (by simp)

/-- Every successful retrieval path of the dispatch ends in a forward
fill, so every level series handed to the shared post-processing has its
NaNs in a leading segment. -/
theorem dispatch_ffill (env : Env) (name : String) (days : ℕ) (d : Series)
    (h : dispatch env name days = some d) : ∃ x, d = ffill x := by
  unfold dispatch at h
  by_cases h1 : name = "GDP Growth Rate"
  · rw [if_pos h1] at h
    exact get_fred_data_ffill _ _ _ _ h
  rw [if_neg h1] at h
  by_cases h2 : name = "Non-Farm Payroll"
  · rw [if_pos h2] at h
    exact get_fred_data_ffill _ _ _ _ h
  rw [if_neg h2] at h
  by_cases h3 : name = "Employment Data"
  · rw [if_pos h3] at h
    exact get_fred_data_ffill _ _ _ _ h
  rw [if_neg h3] at h
  by_cases h4 : name = "Personal Finance"
  · rw [if_pos h4] at h
    exact get_fred_data_ffill _ _ _ _ h
  rw [if_neg h4] at h
  by_cases h5 : name = "Housing Sales"
  · rw [if_pos h5] at h
    exact get_fred_data_ffill _ _ _ _ h
  rw [if_neg h5] at h
  by_cases h6 : name = "Auto Sales"
  · rw [if_pos h6] at h
    exact get_fred_data_ffill _ _ _ _ h
  rw [if_neg h6] at h
  by_cases h7 : name = "Retail Sales"
  · rw [if_pos h7] at h
    exact get_fred_data_ffill _ _ _ _ h
  rw [if_neg h7] at h
  by_cases h8 : name = "Manufacturing PMI"
  · rw [if_pos h8] at h
    exact get_fred_data_ffill _ _ _ _ h
  rw [if_neg h8] at h
  by_cases h9 : name = "Services PMI"
  · rw [if_pos h9] at h
    exact get_fred_data_ffill _ _ _ _ h
  rw [if_neg h9] at h
  by_cases h10 : name = "Housing Supply"
  · rw [if_pos h10] at h
    exact get_fred_data_ffill _ _ _ _ h
  rw [if_neg h10] at h
  by_cases h11 : name = "Manufacturing Orders"
  · rw [if_pos h11] at h
    exact get_fred_data_ffill _ _ _ _ h
  rw [if_neg h11] at h
  by_cases h12 : name = "Weekly Economic Index (WEI)"
  · rw [if_pos h12] at h
    exact get_fred_data_ffill _ _ _ _ h
  rw [if_neg h12] at h
  by_cases h13 : name = "Copper/Gold Ratio"
  · rw [if_pos h13] at h
    exact get_ratio_data_ffill _ _ _ _ _ h
  rw [if_neg h13] at h
  by_cases h14 : name = "Oil/Gold Ratio"
  · rw [if_pos h14] at h
    exact get_ratio_data_ffill _ _ _ _ _ h
  rw [if_neg h14] at h
  by_cases h15 : name = "Key Interest Rates"
  · rw [if_pos h15] at h
    exact get_fred_data_ffill _ _ _ _ h
  rw [if_neg h15] at h
  by_cases h16 : name = "Credit Spread"
  · rw [if_pos h16] at h
    rcases hb : get_fred_data env "BAA" days with _ | b <;>
      rcases ht : get_fred_data env "DGS10" days with _ | t <;>
      rw [hb, ht] at h <;>
      first
        | (injection h with h2; exact ⟨_, h2.symm⟩)
        | exact Option.noConfusion h
  rw [if_neg h16] at h
  by_cases h17 : name = "VIX Index"
  · rw [if_pos h17] at h
    exact get_market_data_ffill _ _ _ _ h
  rw [if_neg h17] at h
  exact get_market_data_ffill _ _ _ _ h

theorem truncWindow_length (days : ℕ) (h : 1 ≤ days) (s : Series) :
    (truncWindow days s).length ≤ days := by
  unfold truncWindow ilocLast
  split
  · rw [if_neg (by omega)]
    rw [List.length_drop]
    omega
  · omega

theorem mem_truncWindow (days : ℕ) (s : Series) (p : ℤ × FVal)
    (h : p ∈ truncWindow days s) : p ∈ s := by
  unfold truncWindow ilocLast at h
  split at h
  · split at h
    · exact h
    · exact List.mem_of_mem_drop h
  · exact h

/-- `get_real_data` written out as a pure case analysis (the `Except`
layer of the outer `try` collapsed). -/
theorem get_real_data_eq (env : Env) (name : String) (days : ℕ) :
    get_real_data env name days =
      match dispatch env name days with
      | some d =>
          (some (truncWindow days d),
           match calculate_yoy_growth d with
           | some y => some (truncWindow days y)
           | none => none)
      | none => (none, none) := by
  unfold get_real_data get_real_data_core
  cases dispatch env name days with
  | none => rfl
  | some d => cases hy : calculate_yoy_growth d <;> simp [hy]

theorem ffill_length (s : Series) : (ffill s).length = s.length := ffillFrom_length _ _

theorem ffill_ts (s : Series) (i : ℕ) : ((ffill s).getD i dfl).1 = (s.getD i dfl).1 :=
  ffillFrom_ts _ _ _

/-- A non-NaN entry of the YoY output sits at grid position ≥ 365, hence
at a timestamp at least 365 days after the level series' first
timestamp. -/
theorem pct_grid_ts (d : Series) (t0 : ℤ) (h0 : headTs d = some t0) (p : ℤ × FVal)
    (hp : p ∈ pctChange365 (asfreqD d)) (hnan : p.2 ≠ FVal.nan) : t0 + 365 ≤ p.1 := by
  have hne : d ≠ [] := by
    intro hnil
    rw [hnil] at h0
    simp [headTs] at h0
  have h1 : lastTs d = some (d.getLast hne).1 := by
    unfold lastTs
    rw [List.getLast?_eq_getLast_of_ne_nil hne]
    rfl
  rw [asfreqD_eq d t0 _ h0 h1] at hp
  unfold pctChange365 at hp
  rw [List.mem_map] at hp
  obtain ⟨i, hi, hpe⟩ := hp
  rw [List.mem_range, ffill_length, List.length_map, List.length_range] at hi
  subst hpe
  by_cases h365 : 365 ≤ i
  · rw [ffill_ts, grid_getD _ t0 _ i hi]
    show t0 + 365 ≤ t0 + (i : ℤ)
    omega
  · exfalso
    apply hnan
    show mul100 (fsub (fdiv _ (if 365 ≤ i then _ else FVal.nan)) (FVal.fin 1)) = FVal.nan
    rw [if_neg h365, fdiv_nan_right, fsub_nan_left, mul100_nan]

theorem lookupLE_cases (s : Series) (t : ℤ) :
    lookupLE s t = FVal.nan ∨ ∃ p ∈ s, lookupLE s t = p.2 := by
  unfold lookupLE
  cases hTL : (s.takeWhile (fun p => decide (p.1 ≤ t))).getLast? with
  | none => exact Or.inl rfl
  | some pl =>
    right
    refine ⟨pl, ?_, rfl⟩
    have hne : s.takeWhile (fun p => decide (p.1 ≤ t)) ≠ [] := by
      intro hnil
      rw [hnil] at hTL
      simp at hTL
    have hmem : pl ∈ s.takeWhile (fun p => decide (p.1 ≤ t)) := by
      rw [List.getLast?_eq_getLast_of_ne_nil hne] at hTL
      injection hTL with h2
      rw [← h2]
      exact List.getLast_mem hne
    exact (List.takeWhile_prefix _).subset hmem

theorem seriesAt_cases (s : Series) (t : ℤ) :
    seriesAt s t = FVal.nan ∨ ∃ p ∈ s, seriesAt s t = p.2 := by
  unfold seriesAt
  cases hf : s.find? (fun p => p.1 = t) with
  | none => exact Or.inl rfl
  | some p => exact Or.inr ⟨p, List.mem_of_find?_eq_some hf, rfl⟩

/-- On a constant series every grid value is the constant or NaN. -/
theorem asfreqD_val_cases (d : Series) (q : ℚ) (hq : ∀ p ∈ d, p.2 = FVal.fin q) :
    ∀ gp ∈ asfreqD d, gp.2 = FVal.nan ∨ gp.2 = FVal.fin q := by
  intro gp hgp
  cases h0 : headTs d with
  | none => rw [asfreqD_eq_nil_head d h0] at hgp; cases hgp
  | some t0 =>
    cases h1 : lastTs d with
    | none => rw [asfreqD_eq_nil_last d h1] at hgp; cases hgp
    | some t1 =>
      rw [asfreqD_eq d t0 t1 h0 h1, List.mem_map] at hgp
      obtain ⟨i, hi, rfl⟩ := hgp
      rcases lookupLE_cases d (t0 + (i : ℤ)) with h | ⟨pp, hpp, h⟩
      · exact Or.inl h
      · exact Or.inr (by rw [show ((t0 + (i : ℤ), lookupLE d (t0 + (i : ℤ))) : ℤ × FVal).2 =
          lookupLE d (t0 + (i : ℤ)) from rfl, h, hq pp hpp])

/-- A constant level series yields a growth value of 0 wherever the
growth value is defined (non-NaN). -/
theorem specYoy_const (d : Series) (q : ℚ) (hq : ∀ p ∈ d, p.2 = FVal.fin q) :
    ∀ p ∈ specYoy d, p.2 ≠ FVal.nan → p.2 = FVal.fin 0 := by
  intro p hp hnan
  unfold specYoy at hp
  rw [List.mem_map] at hp
  obtain ⟨gp, hgp, rfl⟩ := hp
  rcases asfreqD_val_cases d q hq gp hgp with hv | hv
  · exfalso
    apply hnan
    show mul100 (fsub (fdiv gp.2 (seriesAt (asfreqD d) (gp.1 - 365))) (FVal.fin 1)) = FVal.nan
    rw [hv, fdiv_nan_left, fsub_nan_left, mul100_nan]
  · rcases seriesAt_cases (asfreqD d) (gp.1 - 365) with hs | ⟨pp, hpp, hs⟩
    · exfalso
      apply hnan
      show mul100 (fsub (fdiv gp.2 (seriesAt (asfreqD d) (gp.1 - 365))) (FVal.fin 1)) = FVal.nan
      rw [hs, hv, fdiv_nan_right, fsub_nan_left, mul100_nan]
    · rcases asfreqD_val_cases d q hq pp hpp with hw | hw
      · exfalso
        apply hnan
        show mul100 (fsub (fdiv gp.2 (seriesAt (asfreqD d) (gp.1 - 365))) (FVal.fin 1)) = FVal.nan
        rw [hs, hw, hv, fdiv_nan_right, fsub_nan_left, mul100_nan]
      · show mul100 (fsub (fdiv gp.2 (seriesAt (asfreqD d) (gp.1 - 365))) (FVal.fin 1)) = FVal.fin 0
        rw [hs, hw, hv]
        by_cases hq0 : q = 0
        · exfalso
          apply hnan
          show mul100 (fsub (fdiv gp.2 (seriesAt (asfreqD d) (gp.1 - 365))) (FVal.fin 1)) = FVal.nan
          rw [hs, hw, hv, hq0]
          simp [fdiv, fsub, mul100]
        · simp [fdiv, if_neg hq0, fsub, mul100, div_self hq0]

theorem get_real_data_of_dispatch_none (env : Env) (name : String) (days : ℕ)
    (hd : dispatch env name days = none) : get_real_data env name days = (none, none) := by
  rw [get_real_data_eq, hd]

theorem get_real_data_fst (env : Env) (name : String) (days : ℕ) (d : Series)
    (hd : dispatch env name days = some d) :
    (get_real_data env name days).1 = some (truncWindow days d) := by
  rw [get_real_data_eq, hd]

theorem get_real_data_snd (env : Env) (name : String) (days : ℕ) (d y : Series)
    (hd : dispatch env name days = some d) (hy : calculate_yoy_growth d = some y) :
    (get_real_data env name days).2 = some (truncWindow days y) := by
  rw [get_real_data_eq, hd]
  show (match calculate_yoy_growth d with
        | some y => some (truncWindow days y)
        | none => none) = some (truncWindow days y)
  rw [hy]

theorem get_real_data_snd_none (env : Env) (name : String) (days : ℕ) (d : Series)
    (hd : dispatch env name days = some d) (hy : calculate_yoy_growth d = none) :
    (get_real_data env name days).2 = none := by
  rw [get_real_data_eq, hd]
  show (match calculate_yoy_growth d with
        | some y => some (truncWindow days y)
        | none => none) = none
  rw [hy]

/-! ### Concrete environments used as witnesses and counterexamples -/

/-- An environment in which every provider call raises. -/
def envFail : Env :=
  { fred := fun _ _ _ => Except.error PyError.generic,
    yahoo := fun _ _ _ => Except.error PyError.generic,
    now := 20000 }

/-- An environment whose FRED client returns a three-day federal-funds
series and fails on everything else. -/
def envDff : Env :=
  { fred := fun sid _ _ =>
      if sid = "DFF" then
        Except.ok [((1000 : ℤ), RawVal.num 1), ((1001 : ℤ), RawVal.num 2),
          ((1002 : ℤ), RawVal.num 3)]
      else Except.error PyError.generic,
    yahoo := fun _ _ _ => Except.error PyError.generic,
    now := 2000 }

/-- The level series `envDff` produces for "Key Interest Rates". -/
def dDff : Series :=
  [((1000 : ℤ), FVal.fin 1), ((1001 : ℤ), FVal.fin 2), ((1002 : ℤ), FVal.fin 3)]

/-! ### Claim theorems -/

/-- C1: for every environment behavior (any pattern of provider success
and failure), every metric name (any string) and every windowDays > 0,
the body of `get_real_data` runs to completion without an uncaught
exception — the outer catch-all is never needed — and the call returns
the 2-tuple whose components are each either a series or absent; every
retrieval or computation failure has already been converted into an
absent (`none`) component by an inner handler. -/
theorem resolve_never_raises (env : Env) (name : String) (days : ℕ) (_h : 0 < days) :
    get_real_data_core env name days = Except.ok (get_real_data env name days) := by
  have hcore : get_real_data_core env name days =
      Except.ok (match dispatch env name days with
        | some d =>
            (some (truncWindow days d),
             match calculate_yoy_growth d with
             | some y => some (truncWindow days y)
             | none => none)
        | none => (none, none)) := by
    unfold get_real_data_core
    cases dispatch env name days with
    | none => rfl
    | some d =>
      show (match calculate_yoy_growth d with
            | some y => Except.ok (some (truncWindow days d), some (truncWindow days y))
            | none => Except.ok (some (truncWindow days d), none)) =
        Except.ok (some (truncWindow days d),
          match calculate_yoy_growth d with
          | some y => some (truncWindow days y)
          | none => none)
      cases calculate_yoy_growth d <;> rfl
  rw [hcore, get_real_data_eq]

theorem resolve_never_raises_witness :
    0 < 90 ∧ get_real_data_core envFail "VIX Index" 90 =
      Except.ok (get_real_data envFail "VIX Index" 90) :=
  ⟨by decide, resolve_never_raises envFail "VIX Index" 90 (by decide)⟩

/-- C2 (code bug): `calculate_change` returns absent for an empty
series, for a non-numeric endpoint and for a NaN endpoint (those
exceptions/checks are handled), but when the first value is zero the
division `(last - first) / first` is Python float division and raises
`ZeroDivisionError`, which is not in the caught exception tuple
`(TypeError, ValueError, AttributeError, IndexError)` and therefore
propagates to the caller instead of producing `None`. -/
theorem calculate_change_endpoint_behavior :
    calculate_change (PyObj.series []) = Except.ok none
    ∧ calculate_change (PyObj.series [((0 : ℤ), RawVal.nan), ((1 : ℤ), RawVal.num 5)]) =
        Except.ok none
    ∧ calculate_change (PyObj.series [((0 : ℤ), RawVal.str), ((1 : ℤ), RawVal.num 5)]) =
        Except.ok none
    ∧ calculate_change (PyObj.series [((0 : ℤ), RawVal.num 0), ((1 : ℤ), RawVal.num 1)]) =
        Except.error PyError.zeroDivisionError := by
  exact ⟨rfl, rfl, rfl, rfl⟩

/-- C3: for the Credit Spread metric, if either underlying FRED fetch
(BAA yield, 10-year treasury yield) comes back absent, the whole result
is `(none, none)` — never a partial result from the surviving series —
and when both succeed the level series is the truncation of the
date-aligned elementwise difference, forward-filled. -/
theorem credit_spread_all_or_nothing (env : Env) (days : ℕ) :
    ((get_fred_data env "BAA" days = none ∨ get_fred_data env "DGS10" days = none) →
      get_real_data env "Credit Spread" days = (none, none))
    ∧ (∀ baa treasury, get_fred_data env "BAA" days = some baa →
        get_fred_data env "DGS10" days = some treasury →
        (get_real_data env "Credit Spread" days).1 =
          some (truncWindow days (ffill (alignWith fsub baa treasury)))) := by
  have hdisp : dispatch env "Credit Spread" days =
      (match get_fred_data env "BAA" days, get_fred_data env "DGS10" days with
       | some baa, some treasury => some (ffill (alignWith fsub baa treasury))
       | _, _ => none) := by
    unfold dispatch
    repeat rw [if_neg (by decide)]
    try rw [if_pos rfl]
    try rfl
  constructor
  · intro h
    have hd : dispatch env "Credit Spread" days = none := by
      rw [hdisp]
      rcases h with h | h
      · rw [h]
      · rw [h]
        cases get_fred_data env "BAA" days <;> rfl
    exact get_real_data_of_dispatch_none env "Credit Spread" days hd
  · intro baa treasury hb ht
    have hd : dispatch env "Credit Spread" days =
        some (ffill (alignWith fsub baa treasury)) := by
      rw [hdisp, hb, ht]
    exact get_real_data_fst env "Credit Spread" days _ hd

theorem credit_spread_witness :
    get_fred_data envFail "DGS10" 90 = none
    ∧ get_real_data envFail "Credit Spread" 90 = (none, none) := by
  have h1 : get_fred_data envFail "DGS10" 90 = none := rfl
  exact ⟨h1, (credit_spread_all_or_nothing envFail 90).1 (Or.inr h1)⟩

/-- C4: whenever the level component of the returned pair is absent, the
growth component is absent too (the only path returning an absent level
is the `(None, None)` one). -/
theorem level_absent_growth_absent (env : Env) (name : String) (days : ℕ)
    (h : (get_real_data env name days).1 = none) :
    (get_real_data env name days).2 = none := by
  cases hd : dispatch env name days with
  | none => rw [get_real_data_of_dispatch_none env name days hd]
  | some d => rw [get_real_data_fst env name days d hd] at h; cases h

theorem level_absent_growth_absent_witness :
    (get_real_data envFail "GDP Growth Rate" 365).1 = none
    ∧ (get_real_data envFail "GDP Growth Rate" 365).2 = none :=
  ⟨rfl, level_absent_growth_absent envFail "GDP Growth Rate" 365 rfl⟩

/-- C5: truncation law — for any windowDays ≥ 1, each returned series
(when present) has at most windowDays points; each side is truncated
independently by keeping its last windowDays points when longer. -/
theorem truncation_law (env : Env) (name : String) (days : ℕ) (h : 1 ≤ days) :
    (∀ l, (get_real_data env name days).1 = some l → l.length ≤ days)
    ∧ (∀ g, (get_real_data env name days).2 = some g → g.length ≤ days) := by
  cases hd : dispatch env name days with
  | none =>
    rw [get_real_data_of_dispatch_none env name days hd]
    exact ⟨(fun l hl => nomatch hl), (fun g hg => nomatch hg)⟩
  | some d =>
    constructor
    · intro l hl
      rw [get_real_data_fst env name days d hd] at hl
      injection hl with hl2
      rw [← hl2]
      exact truncWindow_length days h d
    · intro g hg
      cases hy : calculate_yoy_growth d with
      | none => rw [get_real_data_snd_none env name days d hd hy] at hg; cases hg
      | some y =>
        rw [get_real_data_snd env name days d y hd hy] at hg
        injection hg with hg2
        rw [← hg2]
        exact truncWindow_length days h y

theorem truncation_law_witness :
    1 ≤ 400 ∧ dDff.length ≤ 400 :=
  ⟨by decide, (truncation_law envDff "Key Interest Rates" 400 (by decide)).1 dDff (by decide)⟩

/-- C6 (counterexample): the resolver's growth series retains its
leading ~365 days of grid timestamps with NaN values (`pct_change` keeps
the undefined rows; it does not drop them), so the growth series can
contain timestamps earlier than the level series' earliest timestamp
plus 365 days.  Concretely: a three-day federal-funds series starting at
day 1000 yields a growth series whose first timestamp is 1000 itself,
while the claim demands ≥ 1365. -/
theorem growth_ts_claim_counterexample :
    (get_real_data envDff "Key Interest Rates" 400).1 = some dDff
    ∧ (get_real_data envDff "Key Interest Rates" 400).2 =
        some [((1000 : ℤ), FVal.nan), ((1001 : ℤ), FVal.nan), ((1002 : ℤ), FVal.nan)]
    ∧ headTs dDff = some 1000
    ∧ ((1000 : ℤ), FVal.nan) ∈
        [((1000 : ℤ), FVal.nan), ((1001 : ℤ), FVal.nan), ((1002 : ℤ), FVal.nan)]
    ∧ ¬ ((1000 : ℤ) + 365 ≤ 1000) := by
  decide

/-- C6 (amended): every *defined* (non-NaN) entry of the growth series
has a timestamp at least 365 days after the earliest timestamp of the
level series as fetched/derived (before window truncation). -/
theorem growth_defined_ts_lower_bound (env : Env) (name : String) (days : ℕ)
    (d : Series) (t0 : ℤ) (gs : Series)
    (hdisp : dispatch env name days = some d)
    (h0 : headTs d = some t0)
    (hg : (get_real_data env name days).2 = some gs) :
    ∀ p ∈ gs, p.2 ≠ FVal.nan → t0 + 365 ≤ p.1 := by
  intro p hp hnan
  cases hy : calculate_yoy_growth d with
  | none => rw [get_real_data_snd_none env name days d hdisp hy] at hg; cases hg
  | some y =>
    rw [get_real_data_snd env name days d y hdisp hy] at hg
    injection hg with hg2
    subst hg2
    have hpy : p ∈ y := mem_truncWindow days y p hp
    unfold calculate_yoy_growth at hy
    split at hy
    · injection hy with hy2
      rw [← hy2] at hpy
      exact pct_grid_ts d t0 h0 p hpy hnan
    · cases hy

theorem growth_ts_witness :
    dispatch envDff "Key Interest Rates" 400 = some dDff
    ∧ ∀ p ∈ [((1000 : ℤ), FVal.nan), ((1001 : ℤ), FVal.nan), ((1002 : ℤ), FVal.nan)],
        p.2 ≠ FVal.nan → (1000 : ℤ) + 365 ≤ p.1 := by
  have h1 : dispatch envDff "Key Interest Rates" 400 = some dDff := by decide
  have h2 : headTs dDff = some 1000 := by decide
  have h3 : (get_real_data envDff "Key Interest Rates" 400).2 =
      some [((1000 : ℤ), FVal.nan), ((1001 : ℤ), FVal.nan), ((1002 : ℤ), FVal.nan)] := by
    decide
  exact ⟨h1, growth_defined_ts_lower_bound envDff "Key Interest Rates" 400 dDff 1000 _ h1 h2 h3⟩

/-- C7: for every level series the dispatch accepts (with a monotonic
index, as `asfreq` requires), the returned pair is exactly the
un-resampled original level series (truncated) together with the growth
series obtained by resampling onto the continuous daily grid with
forward fill and evaluating `(value[t] / value[t - 365 days] - 1) * 100`
on that grid (truncated); consequently a constant level series yields a
growth series that is 0 wherever it is defined. -/
theorem yoy_pipeline_refinement (env : Env) (name : String) (days : ℕ) (d : Series)
    (hdisp : dispatch env name days = some d) (hmono : monoTs d = true) :
    get_real_data env name days =
      (some (truncWindow days d), some (truncWindow days (specYoy d)))
    ∧ ∀ q : ℚ, (∀ p ∈ d, p.2 = FVal.fin q) →
        ∀ p ∈ specYoy d, p.2 ≠ FVal.nan → p.2 = FVal.fin 0 := by
  obtain ⟨x, hx⟩ := dispatch_ffill env name days d hdisp
  have hnl : nanLeading d := by rw [hx]; exact nanLeading_ffill x
  have hy : calculate_yoy_growth d = some (specYoy d) := by
    unfold calculate_yoy_growth
    rw [if_pos hmono, pct_eq_spec d hnl]
  constructor
  · have h1 := get_real_data_fst env name days d hdisp
    have h2 := get_real_data_snd env name days d _ hdisp hy
    exact Prod.ext_iff.mpr ⟨h1, h2⟩
  · intro q hq
    exact specYoy_const d q hq

theorem yoy_pipeline_refinement_witness :
    dispatch envDff "Key Interest Rates" 400 = some dDff
    ∧ monoTs dDff = true
    ∧ get_real_data envDff "Key Interest Rates" 400 =
        (some (truncWindow 400 dDff), some (truncWindow 400 (specYoy dDff))) := by
  have h1 : dispatch envDff "Key Interest Rates" 400 = some dDff := by decide
  have h2 : monoTs dDff = true := by decide
  exact ⟨h1, h2, (yoy_pipeline_refinement envDff "Key Interest Rates" 400 dDff h1 h2).1⟩

/-- The seventeen metric names that the `if/elif` chain of
`get_real_data` matches explicitly; every other name falls through to
the S&P 500 fallback. -/
def matchedNames : List String :=
  ["GDP Growth Rate", "Non-Farm Payroll", "Employment Data", "Personal Finance",
   "Housing Sales", "Auto Sales", "Retail Sales", "Manufacturing PMI", "Services PMI",
   "Housing Supply", "Manufacturing Orders", "Weekly Economic Index (WEI)",
   "Copper/Gold Ratio", "Oil/Gold Ratio", "Key Interest Rates", "Credit Spread",
   "VIX Index"]

/-- C8: any metric name outside the explicitly matched set dispatches to
the broad equity index (^GSPC) fetch, identically to the unmatched
Market-category metric "Market Breadth"; no error is raised for the
unknown name. -/
theorem unknown_metric_default (env : Env) (days : ℕ) (name : String)
    (h : name ∉ matchedNames) :
    dispatch env name days = get_market_data env "^GSPC" days
    ∧ get_real_data env name days = get_real_data env "Market Breadth" days := by
  simp only [matchedNames, List.mem_cons, List.not_mem_nil, or_false, not_or] at h
  obtain ⟨h1, h2, h3, h4, h5, h6, h7, h8, h9, h10, h11, h12, h13, h14, h15, h16, h17⟩ := h
  have hd : dispatch env name days = get_market_data env "^GSPC" days := by
    unfold dispatch
    rw [if_neg h1, if_neg h2, if_neg h3, if_neg h4, if_neg h5, if_neg h6, if_neg h7,
      if_neg h8, if_neg h9, if_neg h10, if_neg h11, if_neg h12, if_neg h13, if_neg h14,
      if_neg h15, if_neg h16, if_neg h17]
  have hmb : dispatch env "Market Breadth" days = get_market_data env "^GSPC" days := by
    unfold dispatch
    repeat rw [if_neg (by decide)]
  refine ⟨hd, ?_⟩
  rw [get_real_data_eq env name days, get_real_data_eq env "Market Breadth" days, hd, hmb]

theorem unknown_metric_default_witness :
    "Some Unrecognized Metric Name" ∉ matchedNames
    ∧ get_real_data envFail "Some Unrecognized Metric Name" 365 =
        get_real_data envFail "Market Breadth" 365 := by
  have h1 : "Some Unrecognized Metric Name" ∉ matchedNames := by decide
  exact ⟨h1, (unknown_metric_default envFail 365 "Some Unrecognized Metric Name" h1).2⟩

/-- C9: the catalog lists exactly the four categories Consumption,
Supply, Interest Rate and Market, in that order, with 7, 7, 3 and 6
metrics respectively (23 in total), and every cataloged metric has a
non-empty definition string in the parallel `METRIC_DEFINITIONS`
lookup. -/
theorem catalog_shape :
    get_categories.map Prod.fst = ["Consumption", "Supply", "Interest Rate", "Market"]
    ∧ get_categories.map (fun c => c.2.length) = [7, 7, 3, 6]
    ∧ (get_categories.map (fun c => c.2.length)).sum = 23
    ∧ ∀ c ∈ get_categories, ∀ m ∈ c.2,
        (lookupDef m).isSome = true ∧ (lookupDef m).getD "" ≠ "" := by
  refine ⟨rfl, rfl, rfl, ?_⟩
  decide

/-- C10: any argument that is not a pandas Series (a list, a DataFrame,
None, ...) fails the `isinstance` test and reaches the trailing
`return None` — no change is computed and no exception is raised. -/
theorem non_series_change_none (data : PyObj) (h : isSeriesObj data = false) :
    calculate_change data = Except.ok none := by
  cases data with
  | series s => simp [isSeriesObj] at h
  | dataframe => rfl
  | pylist l => rfl
  | pynone => rfl

theorem non_series_change_none_witness :
    isSeriesObj PyObj.pynone = false ∧ calculate_change PyObj.pynone = Except.ok none :=
  ⟨rfl, non_series_change_none PyObj.pynone rfl⟩
